import Mathlib

/-!
Verification of ta-agi-doorbell (src/main.rs, src/config.rs).

We shallowly embed the program: bytes are `Nat` (< 256), strings are Lean
`String` (all strings involved are ASCII, so `Char.toNat` gives the UTF-8
byte), machine integers are `Nat` with explicit `% 2^w` where overflow
matters.  The external codec and transport are modelled at their interface
boundary: a send is recorded as an `Event` carrying the payload triple
`(virtual_node, pdo, value)` and the destination host string.
-/

set_option maxRecDepth 20000

namespace Doorbell

/-! ## Bytes and hex (the `hex` crate: `hex::encode`, `hex::decode`) -/

/-- UTF-8 bytes of an ASCII string (`str::as_bytes` in Rust; all strings we
feed in are ASCII, where UTF-8 is the identity on code points). -/
def strBytes (s : String) : List Nat := s.data.map Char.toNat

/-- Lowercase hex digit for a nibble, as `hex::encode` emits. -/
def hexDigitChar (n : Nat) : Char :=
  if n < 10 then Char.ofNat (48 + n) else Char.ofNat (87 + n)

/-- `hex::encode` on a byte list, as a char list. -/
def hexEncodeList : List Nat → List Char
  | [] => []
  | b :: rest => hexDigitChar (b / 16) :: hexDigitChar (b % 16) :: hexEncodeList rest

/-- `hex::encode`: lowercase hex string of a byte list. -/
def hexEncode (bs : List Nat) : String := ⟨hexEncodeList bs⟩

/-- Value of one hex digit as `hex::decode` accepts it: `0-9`, `a-f`, `A-F`. -/
def hexDigitVal (c : Char) : Option Nat :=
  if 48 ≤ c.toNat ∧ c.toNat ≤ 57 then some (c.toNat - 48)
  else if 97 ≤ c.toNat ∧ c.toNat ≤ 102 then some (c.toNat - 87)
  else if 65 ≤ c.toNat ∧ c.toNat ≤ 70 then some (c.toNat - 55)
  else none

/-- `hex::decode` on a char list: fails on odd length (`OddLength`) and on any
non-hex character (`InvalidHexCharacter`). -/
def hexDecodeList : List Char → Option (List Nat)
  | [] => some []
  | [_] => none
  | hi :: lo :: rest =>
    match hexDigitVal hi, hexDigitVal lo, hexDecodeList rest with
    | some h, some l, some bs => some ((16 * h + l) :: bs)
    | _, _, _ => none

/-- `hex::decode` on a string. -/
def hexDecode (s : String) : Option (List Nat) := hexDecodeList s.data

/-! ## SHA-1 (the `sha1` crate, standard FIPS 180 SHA-1) -/

/-- Truncate to a 32-bit word. -/
def w32 (x : Nat) : Nat := x % 4294967296

/-- Rotate a 32-bit word (`x < 2^32`) left by `n ≤ 32` bits. -/
def rotl32 (n x : Nat) : Nat := ((x <<< n) % 4294967296) ||| (x >>> (32 - n))

/-- Big-endian word from a list of bytes. -/
def beWord (bs : List Nat) : Nat := bs.foldl (fun acc b => acc * 256 + b) 0

/-- Big-endian 4-byte encoding of a 32-bit word. -/
def beBytes4 (x : Nat) : List Nat :=
  [(x >>> 24) % 256, (x >>> 16) % 256, (x >>> 8) % 256, x % 256]

/-- Big-endian 8-byte encoding of a 64-bit value. -/
def beBytes8 (x : Nat) : List Nat :=
  [(x >>> 56) % 256, (x >>> 48) % 256, (x >>> 40) % 256, (x >>> 32) % 256,
   (x >>> 24) % 256, (x >>> 16) % 256, (x >>> 8) % 256, x % 256]

/-- Split a list into chunks of `k` elements (fuelled by the list length). -/
def chunksAux (k : Nat) : Nat → List α → List (List α)
  | 0, _ => []
  | _, [] => []
  | fuel + 1, l => l.take k :: chunksAux k fuel (l.drop k)

def chunks (k : Nat) (l : List α) : List (List α) := chunksAux k l.length l

/-- SHA-1 padding: append `0x80`, zeros to 56 mod 64, then the bit length
as a big-endian 64-bit integer. -/
def sha1pad (msg : List Nat) : List Nat :=
  msg ++ 128 :: List.replicate ((119 - msg.length % 64) % 64) 0
      ++ beBytes8 ((8 * msg.length) % 18446744073709551616)

/-- Extend the 16 message-schedule words to 80:
`w[t] = rotl1 (w[t-3] xor w[t-8] xor w[t-14] xor w[t-16])`. -/
def sha1extend (ws : List Nat) : Nat → List Nat
  | 0 => ws
  | n + 1 =>
    let k := ws.length
    sha1extend
      (ws ++ [rotl32 1 ((ws.getD (k - 3) 0) ^^^ (ws.getD (k - 8) 0) ^^^
        (ws.getD (k - 14) 0) ^^^ (ws.getD (k - 16) 0))]) n

/-- The SHA-1 round function for round `t`. -/
def sha1f (t b c d : Nat) : Nat :=
  if t < 20 then (b &&& c) ||| ((b ^^^ 4294967295) &&& d)
  else if t < 40 then b ^^^ c ^^^ d
  else if t < 60 then (b &&& c) ||| (b &&& d) ||| (c &&& d)
  else b ^^^ c ^^^ d

/-- The SHA-1 round constant for round `t`. -/
def sha1k (t : Nat) : Nat :=
  if t < 20 then 0x5a827999
  else if t < 40 then 0x6ed9eba1
  else if t < 60 then 0x8f1bbcdc
  else 0xca62c1d6

/-- The SHA-1 chaining state. -/
structure SHA1State where
  a : Nat
  b : Nat
  c : Nat
  d : Nat
  e : Nat
deriving DecidableEq

def sha1init : SHA1State :=
  ⟨0x67452301, 0xefcdab89, 0x98badcfe, 0x10325476, 0xc3d2e1f0⟩

/-- One SHA-1 round: consume the `(t, w[t])` pair. -/
def sha1round (st : SHA1State) (tw : Nat × Nat) : SHA1State :=
  ⟨w32 (rotl32 5 st.a + sha1f tw.1 st.b st.c st.d + st.e + sha1k tw.1 + tw.2),
   st.a, rotl32 30 st.b, st.c, st.d⟩

/-- Compress one 64-byte block into the chaining state. -/
def sha1compress (h : SHA1State) (block : List Nat) : SHA1State :=
  let ws := sha1extend ((chunks 4 block).map beWord) 64
  let f := ws.enum.foldl sha1round h
  ⟨w32 (h.a + f.a), w32 (h.b + f.b), w32 (h.c + f.c), w32 (h.d + f.d), w32 (h.e + f.e)⟩

/-- SHA-1 of a byte list: 20 output bytes. -/
def sha1 (msg : List Nat) : List Nat :=
  let f := (chunks 64 (sha1pad msg)).foldl sha1compress sha1init
  beBytes4 f.a ++ beBytes4 f.b ++ beBytes4 f.c ++ beBytes4 f.d ++ beBytes4 f.e

/-- Sanity check against the FIPS 180 test vector:
`SHA1("abc") = a9993e364706816aba3e25717850c26c9cd0d89d`. -/
theorem sha1_abc : hexEncode (sha1 (strBytes "abc")) = "a9993e364706816aba3e25717850c26c9cd0d89d" := by
  rfl

/-! ## Config data model (src/config.rs)

`Ipv4Addr` is only ever displayed, so we model an address by its textual
form (a `String`).  `u8`/`u16` fields are `Nat`s; range bounds appear as
hypotheses where a claim needs them. -/

/-- On-disk `[agi]` section (`AgiConfigData` in src/config.rs). -/
structure AgiConfigData where
  listen_address : String
  listen_port : Option Nat
  digest_secret : String
deriving DecidableEq

/-- Resolved `[agi]` section (`AgiConfig` in src/config.rs). -/
structure AgiConfig where
  listen_address : String
  listen_port : Nat
  digest_secret : String
deriving DecidableEq

/-- `impl From<AgiConfigData> for AgiConfig`: the listen port defaults to 4573. -/
def AgiConfig.fromData (value : AgiConfigData) : AgiConfig :=
  ⟨value.listen_address, value.listen_port.getD 4573, value.digest_secret⟩

/-- On-disk door mapping (`DoorMappingData` in src/config.rs); `pdo` is one-based. -/
structure DoorMappingData where
  door_name : String
  cmi_address : String
  cmi_port : Option Nat
  virtual_node : Nat
  pdo : Nat
deriving DecidableEq

/-- Resolved door mapping (`DoorMapping` in src/config.rs); `pdo` is stored zero-based. -/
structure DoorMapping where
  door_name : String
  cmi_address : String
  cmi_port : Nat
  virtual_node : Nat
  pdo : Nat
deriving DecidableEq

/-- `PdoZeroError` in src/config.rs. -/
inductive PdoZeroError where
  | pdoZero
deriving DecidableEq

/-- `u8::checked_sub`. -/
def checkedSub (a b : Nat) : Option Nat := if b ≤ a then some (a - b) else none

/-- `impl TryFrom<DoorMappingData> for DoorMapping`: the controller port
defaults to 5422; `pdo` is converted one-based → zero-based via `checked_sub(1)`,
failing with `PdoZeroError` on 0. -/
def DoorMapping.tryFrom (value : DoorMappingData) : Except PdoZeroError DoorMapping :=
  match checkedSub value.pdo 1 with
  | none => .error .pdoZero
  | some p => .ok ⟨value.door_name, value.cmi_address, value.cmi_port.getD 5422,
      value.virtual_node, p⟩

/-- On-disk `[cmi]` section (`CmiConfigData` in src/config.rs). -/
structure CmiConfigData where
  door_mappings : List DoorMappingData
deriving DecidableEq

/-- Resolved `[cmi]` section (`CmiConfig` in src/config.rs). -/
structure CmiConfig where
  door_mappings : List DoorMapping
deriving DecidableEq

/-- `collect::<Result<Vec<_>, _>>` over `DoorMapping::try_from`: first error wins. -/
def tryFromMappings : List DoorMappingData → Except PdoZeroError (List DoorMapping)
  | [] => .ok []
  | d :: rest => do
    let m ← DoorMapping.tryFrom d
    let ms ← tryFromMappings rest
    pure (m :: ms)

/-- `impl TryFrom<CmiConfigData> for CmiConfig`. -/
def CmiConfig.tryFrom (value : CmiConfigData) : Except PdoZeroError CmiConfig := do
  pure ⟨← tryFromMappings value.door_mappings⟩

/-- On-disk root config (`ConfigData` in src/config.rs). -/
structure ConfigData where
  agi : AgiConfigData
  cmi : CmiConfigData
deriving DecidableEq

/-- Resolved root config (`Config` in src/config.rs). -/
structure Config where
  agi : AgiConfig
  cmi : CmiConfig
deriving DecidableEq

/-- `impl TryFrom<ConfigData> for Config`. -/
def Config.tryFrom (value : ConfigData) : Except PdoZeroError Config := do
  pure ⟨AgiConfig.fromData value.agi, ← CmiConfig.tryFrom value.cmi⟩

/-- The loop body of `CmiConfig::get_cmi_for_door`: scan in order, return the
first mapping whose `door_name` equals `name`. -/
def findDoor : List DoorMapping → String → Option DoorMapping
  | [], _ => none
  | m :: rest, name => if m.door_name = name then some m else findDoor rest name

/-- `CmiConfig::get_cmi_for_door` (src/config.rs). -/
def CmiConfig.get_cmi_for_door (c : CmiConfig) (name : String) : Option DoorMapping :=
  findDoor c.door_mappings name

/-! ## Transport events and the pulse controller (src/main.rs `open_door`)

The `coe` codec and UDP transport are external; we record each successful
`send_to` of an encoded `(virtual_node, pdo, value)` payload as an `Event`,
tagged with the socket it went out of (a single socket, id 0, is bound per
actuation).  Whether the bind and each send succeed is an input (`Transport`),
standing for the I/O environment. -/

/-- The `coe::Payload` handed to the codec: `(node, pdo_index, OnOff value)`. -/
structure Payload where
  virtual_node : Nat
  pdo : Nat
  value : Bool
deriving DecidableEq

/-- Modelled from the spec: `DoorMapping::payload_with_value` is called in
src/main.rs but its body is not under src/.  Per §4.3 the "on"/"off" logical
value is paired with the mapping's virtual-node id and zero-based index
(exactly what the in-src sibling `DoorMapping::open_door` does with
`Payload::new(self.virtual_node, self.pdo, value)`). -/
def DoorMapping.payload_with_value (m : DoorMapping) (value : Bool) : Payload :=
  ⟨m.virtual_node, m.pdo, value⟩

/-- Modelled from the spec: `DoorMapping::cmi_host` is called in src/main.rs but
its body is not under src/.  Per §4.3 the frame is sent to the mapping's
address:port (the in-src sibling uses `format!("{}:{}", cmi_address, cmi_port)`). -/
def DoorMapping.cmi_host (m : DoorMapping) : String :=
  m.cmi_address ++ ":" ++ toString m.cmi_port

/-- Observable transport activity of one request. -/
inductive Event where
  | sendFrame (socket : Nat) (host : String) (virtual_node : Nat) (pdo : Nat) (value : Bool)
  | sleepSecs (n : Nat)
deriving DecidableEq

/-- A successful `socket.send_to(&encode(p), host)`. -/
def sendEvent (socket : Nat) (host : String) (p : Payload) : Event :=
  .sendFrame socket host p.virtual_node p.pdo p.value

/-- `DoorOpenError` (src/main.rs); the wrapped `std::io::Error` payload of
`CannotSendCoe` is dropped. -/
inductive DoorOpenError where
  | cannotBindSocket
  | cannotSendCoe
deriving DecidableEq

/-- `Display for DoorOpenError` (without the wrapped io error text). -/
def doorOpenErrorMsg : DoorOpenError → String
  | .cannotBindSocket => "Cannot bind to a udp socket to send packets from"
  | .cannotSendCoe => "Cannot send the complete coe packet"

/-- The I/O environment of one actuation: does the UDP bind succeed, and does
each of the two `send_to` calls succeed. -/
structure Transport where
  bindOk : Bool
  sendOnOk : Bool
  sendOffOk : Bool
deriving DecidableEq

/-- `open_door` (src/main.rs): bind one UDP socket, send the ON frame, sleep
15 s, send the OFF frame; any failure aborts with the corresponding error. -/
def open_door (m : DoorMapping) (tr : Transport) : Except DoorOpenError Unit × List Event :=
  if tr.bindOk = false then (.error .cannotBindSocket, [])
  else if tr.sendOnOk = false then (.error .cannotSendCoe, [])
  else
    let onEv := sendEvent 0 m.cmi_host (m.payload_with_value true)
    if tr.sendOffOk = false then (.error .cannotSendCoe, [onEv, .sleepSecs 15])
    else (.ok (), [onEv, .sleepSecs 15, sendEvent 0 m.cmi_host (m.payload_with_value false)])

/-- `DoorMapping::open_door` (src/config.rs): the unused duplicate.  It binds a
socket, sends the ON frame once, and returns; no sleep, no OFF frame. -/
def DoorMapping.open_door (m : DoorMapping) (bindOk sendOk : Bool) :
    Except DoorOpenError Unit × List Event :=
  if bindOk = false then (.error .cannotBindSocket, [])
  else if sendOk = false then (.error .cannotSendCoe, [])
  else (.ok (), [sendEvent 0 (m.cmi_address ++ ":" ++ toString m.cmi_port)
    ⟨m.virtual_node, m.pdo, true⟩])

/-! ## The digest authenticator (src/main.rs `SHA1DigestOverAGI::handle`) -/

/-- The `AGIError` variants this program produces; `InnerError(Box<dyn Error>)`
is split by the wrapped `SHA1DigestError` variant, `Not200` drops its payload. -/
inductive AGIErrorM where
  | clientSideError (msg : String)
  | innerDecodeError
  | innerWrongDigest
  | not200
deriving DecidableEq

/-- The digest the handler computes locally:
`SHA1(secret_bytes ++ ":" ++ nonce_string_bytes)`. -/
def expected_digest (secret : List Nat) (nonce : String) : List Nat :=
  sha1 (secret ++ strBytes ":" ++ strBytes nonce)

/-- `u64::to_le_bytes`. -/
def leBytes8 (x : Nat) : List Nat :=
  [x % 256, (x >>> 8) % 256, (x >>> 16) % 256, (x >>> 24) % 256,
   (x >>> 32) % 256, (x >>> 40) % 256, (x >>> 48) % 256, (x >>> 56) % 256]

/-- `u32::to_le_bytes`. -/
def leBytes4 (x : Nat) : List Nat :=
  [x % 256, (x >>> 8) % 256, (x >>> 16) % 256, (x >>> 24) % 256]

/-- `clone_from_slice` into `l[start .. start + vals.length]`. -/
def setSlice (l : List Nat) (start : Nat) (vals : List Nat) : List Nat :=
  l.take start ++ vals ++ l.drop (start + vals.length)

/-- `create_nonce` (src/main.rs) as a function of the wall clock and the RNG:
start from a zeroed 20-byte array, write `secs.to_le_bytes()` (u64) at 0..=7,
`millis.to_le_bytes()` (u32) at 8..=11, and the 8 random bytes at 12..=19,
then hex-encode. -/
def create_nonce (secs millis : Nat) (rand : List Nat) : String :=
  hexEncode (setSlice (setSlice (setSlice (List.replicate 20 0) 0 (leBytes8 secs))
    8 (leBytes4 millis)) 12 rand)

/-- `SHA1DigestOverAGI::handle` (src/main.rs), as a function of the generated
nonce and the caller's `GetFullVariable` response value (`none` = the variable
was unset; the `Not200` session-level branch is out of scope).  Returns the
result together with the `Verbose` diagnostics sent over the session. -/
def sha1DigestHandle (secret : List Nat) (nonce : String) (response : Option String) :
    Except AGIErrorM Unit × List String :=
  match response with
  | none => (.error (.clientSideError "Expected BLAZING_AGI_DIGEST_SECRET to be set, but it is not"), [])
  | some s =>
    match hexDecode s with
    | none => (.error .innerDecodeError, [])
    | some bs =>
      if expected_digest secret nonce ≠ bs then
        (.error .innerWrongDigest, ["Unauthenticated: Wrong Digest."])
      else (.ok (), [])

/-! ## The open-door route handler and the request pipeline (src/main.rs) -/

/-- `OpenDoorHandler::handle` (src/main.rs): look up the `door` capture, resolve
it through the registry, then run the pulse controller. -/
def OpenDoorHandler.handle (cfg : CmiConfig) (captures : List (String × String))
    (tr : Transport) : Except AGIErrorM Unit × List Event :=
  match captures.lookup "door" with
  | none => (.error (.clientSideError "Got no captured door"), [])
  | some door =>
    match cfg.get_cmi_for_door door with
    | none => (.error (.clientSideError "Door is not known."), [])
    | some m =>
      match open_door m tr with
      | (.ok _, evs) => (.ok (), evs)
      | (.error e, evs) => (.error (.clientSideError (doorOpenErrorMsg e)), evs)

/-- Modelled from the spec: the `layer_before!`/`Router::layer` dispatch lives
in the external protocol crate; per §4.1 the authenticator "must run
unconditionally before every route", so a request runs the digest handler
first and the route handler only on success. -/
def serveRequest (secret : List Nat) (nonce : String) (response : Option String)
    (cfg : CmiConfig) (captures : List (String × String)) (tr : Transport) :
    Except AGIErrorM Unit × List String × List Event :=
  match sha1DigestHandle secret nonce response with
  | (.ok _, diags) =>
    let r := OpenDoorHandler.handle cfg captures tr
    (r.1, diags, r.2)
  | (.error e, diags) => (.error e, diags, [])

/-! ## Helper lemmas: hex codec -/

theorem hexDigitVal_hexDigitChar : ∀ d < 16, hexDigitVal (hexDigitChar d) = some d := by
  decide

theorem hexDigitVal_toUpper_hexDigitChar :
    ∀ d < 16, hexDigitVal (Char.toUpper (hexDigitChar d)) = some d := by
  decide

theorem hexEncodeList_length (bs : List Nat) : (hexEncodeList bs).length = 2 * bs.length := by
  induction bs with
  | nil => rfl
  | cons b rest ih => simp [hexEncodeList, ih]; omega

theorem hexDecodeList_hexEncodeList (bs : List Nat) (h : ∀ b ∈ bs, b < 256) :
    hexDecodeList (hexEncodeList bs) = some bs := by
  induction bs with
  | nil => rfl
  | cons b rest ih =>
    have hb : b < 256 := h b (by simp)
    have ih' := ih fun x hx => h x (by simp [hx])
    simp only [hexEncodeList, hexDecodeList,
      hexDigitVal_hexDigitChar (b / 16) (by omega),
      hexDigitVal_hexDigitChar (b % 16) (Nat.mod_lt _ (by omega)), ih']
    simp
    omega

theorem hexDecodeList_upper_hexEncodeList (bs : List Nat) (h : ∀ b ∈ bs, b < 256) :
    hexDecodeList (List.map Char.toUpper (hexEncodeList bs)) = some bs := by
  induction bs with
  | nil => rfl
  | cons b rest ih =>
    have hb : b < 256 := h b (by simp)
    have ih' := ih fun x hx => h x (by simp [hx])
    simp only [hexEncodeList, List.map_cons, hexDecodeList,
      hexDigitVal_toUpper_hexDigitChar (b / 16) (by omega),
      hexDigitVal_toUpper_hexDigitChar (b % 16) (Nat.mod_lt _ (by omega)), ih']
    simp
    omega

theorem hexDecode_hexEncode (bs : List Nat) (h : ∀ b ∈ bs, b < 256) :
    hexDecode (hexEncode bs) = some bs :=
  hexDecodeList_hexEncodeList bs h

theorem hexEncode_length (bs : List Nat) : (hexEncode bs).length = 2 * bs.length :=
  hexEncodeList_length bs

theorem hexDecodeList_isSome : ∀ cs : List Char, cs.length % 2 = 0 →
    (∀ c ∈ cs, (hexDigitVal c).isSome = true) → (hexDecodeList cs).isSome = true
  | [], _, _ => rfl
  | [_], h, _ => by simp at h
  | hi :: lo :: rest, h, hall => by
    obtain ⟨a, ha⟩ := Option.isSome_iff_exists.mp (hall hi (by simp))
    obtain ⟨b, hb⟩ := Option.isSome_iff_exists.mp (hall lo (by simp))
    obtain ⟨bs, hbs⟩ := Option.isSome_iff_exists.mp
      (hexDecodeList_isSome rest (by simp at h ⊢; omega)
        (fun c hc => hall c (by simp [hc])))
    simp [hexDecodeList, ha, hb, hbs]

/-! ## Helper lemmas: SHA-1 output shape -/

theorem sha1_length (msg : List Nat) : (sha1 msg).length = 20 := by
  simp [sha1, beBytes4]

theorem sha1_lt256 (msg : List Nat) : ∀ b ∈ sha1 msg, b < 256 := by
  have h4 : ∀ x : Nat, ∀ c ∈ beBytes4 x, c < 256 := by
    intro x c hc
    simp [beBytes4] at hc
    rcases hc with rfl | rfl | rfl | rfl <;> exact Nat.mod_lt _ (by omega)
  intro b hb
  simp only [sha1, List.mem_append] at hb
  rcases hb with (((hb | hb) | hb) | hb) | hb <;> exact h4 _ _ hb

theorem expected_digest_length (secret : List Nat) (nonce : String) :
    (expected_digest secret nonce).length = 20 :=
  sha1_length _

theorem expected_digest_lt256 (secret : List Nat) (nonce : String) :
    ∀ b ∈ expected_digest secret nonce, b < 256 :=
  sha1_lt256 _

/-! ## Helper lemmas: little-endian layout -/

/-- Value of a little-endian byte list. -/
def leVal : List Nat → Nat
  | [] => 0
  | b :: rest => b + 256 * leVal rest

theorem leVal_leBytes8 (x : Nat) (h : x < 18446744073709551616) : leVal (leBytes8 x) = x := by
  simp only [leBytes8, leVal, Nat.shiftRight_eq_div_pow]
  norm_num
  omega

theorem leVal_leBytes4 (x : Nat) (h : x < 4294967296) : leVal (leBytes4 x) = x := by
  simp only [leBytes4, leVal, Nat.shiftRight_eq_div_pow]
  norm_num
  omega

theorem leBytes8_length (x : Nat) : (leBytes8 x).length = 8 := rfl

theorem leBytes4_length (x : Nat) : (leBytes4 x).length = 4 := rfl

theorem leBytes8_lt256 (x : Nat) : ∀ b ∈ leBytes8 x, b < 256 := by
  intro b hb
  simp [leBytes8] at hb
  rcases hb with rfl | rfl | rfl | rfl | rfl | rfl | rfl | rfl <;> exact Nat.mod_lt _ (by omega)

theorem leBytes4_lt256 (x : Nat) : ∀ b ∈ leBytes4 x, b < 256 := by
  intro b hb
  simp [leBytes4] at hb
  rcases hb with rfl | rfl | rfl | rfl <;> exact Nat.mod_lt _ (by omega)

theorem setSlice_append (a b c vals : List Nat) (hv : vals.length = b.length) :
    setSlice (a ++ (b ++ c)) a.length vals = a ++ (vals ++ c) := by
  simp only [setSlice, List.take_left]
  have : a.length + vals.length = (a ++ b).length := by simp [hv]
  rw [this, ← List.append_assoc, List.drop_left, List.append_assoc]

/-- The raw 20-byte nonce layout: seconds LE, millis LE, then the random fill. -/
theorem create_nonce_raw (secs millis : Nat) (rand : List Nat) (hr : rand.length = 8) :
    setSlice (setSlice (setSlice (List.replicate 20 0) 0 (leBytes8 secs))
      8 (leBytes4 millis)) 12 rand
    = leBytes8 secs ++ (leBytes4 millis ++ rand) := by
  have h1 : setSlice (List.replicate 20 0) 0 (leBytes8 secs)
      = leBytes8 secs ++ List.replicate 12 0 := by
    have := setSlice_append [] (List.replicate 8 0) (List.replicate 12 0) (leBytes8 secs)
      (by simp [leBytes8])
    simpa using this
  have h2 : setSlice (leBytes8 secs ++ List.replicate 12 0) 8 (leBytes4 millis)
      = leBytes8 secs ++ (leBytes4 millis ++ List.replicate 8 0) := by
    have := setSlice_append (leBytes8 secs) (List.replicate 4 0) (List.replicate 8 0)
      (leBytes4 millis) (by simp [leBytes4])
    simpa [leBytes8_length] using this
  have h3 : setSlice (leBytes8 secs ++ (leBytes4 millis ++ List.replicate 8 0)) 12 rand
      = leBytes8 secs ++ (leBytes4 millis ++ rand) := by
    have := setSlice_append (leBytes8 secs ++ leBytes4 millis) (List.replicate 8 0) [] rand
      (by simp [hr])
    simp only [List.append_nil, List.append_assoc] at this
    simpa [leBytes8_length, leBytes4_length] using this
  rw [h1, h2, h3]

/-! ## Helper lemmas: resolver and config conversion -/

theorem findDoor_eq_find : ∀ (l : List DoorMapping) (name : String),
    findDoor l name = l.find? (fun m => m.door_name == name)
  | [], _ => rfl
  | m :: rest, name => by
    by_cases h : m.door_name = name
    · rw [List.find?_cons_of_pos _ (by simp [h])]
      simp [findDoor, h]
    · rw [List.find?_cons_of_neg _ (by simp [h])]
      simp [findDoor, h, findDoor_eq_find rest name]

theorem findDoor_some : ∀ (l : List DoorMapping) (name : String) (m : DoorMapping),
    findDoor l name = some m → m ∈ l ∧ m.door_name = name
  | [], _, _, h => by simp [findDoor] at h
  | e :: rest, name, m, h => by
    by_cases he : e.door_name = name
    · simp only [findDoor, if_pos he, Option.some.injEq] at h
      exact ⟨by simp [← h], by rw [← h]; exact he⟩
    · simp only [findDoor, if_neg he] at h
      have := findDoor_some rest name m h
      exact ⟨by simp [this.1], this.2⟩

theorem findDoor_none : ∀ (l : List DoorMapping) (name : String),
    (∀ m ∈ l, m.door_name ≠ name) → findDoor l name = none
  | [], _, _ => rfl
  | e :: rest, name, h => by
    simp only [findDoor, if_neg (h e (by simp))]
    exact findDoor_none rest name fun m hm => h m (by simp [hm])

theorem tryFromMappings_error : ∀ (l : List DoorMappingData), ∀ d ∈ l, d.pdo = 0 →
    tryFromMappings l = .error .pdoZero
  | [], d, hd, _ => absurd hd (List.not_mem_nil d)
  | e :: rest, d, hd, h0 => by
    rcases List.mem_cons.mp hd with rfl | hmem
    · simp only [tryFromMappings, DoorMapping.tryFrom, checkedSub, h0]
      rfl
    · have hrest := tryFromMappings_error rest d hmem h0
      cases he : DoorMapping.tryFrom e with
      | error err => cases err; simp only [tryFromMappings, he]; rfl
      | ok m => simp only [tryFromMappings, he, hrest]; rfl

/-! ## Helper lemmas: the authenticator's acceptance condition -/

theorem handle_some_ok_iff (secret : List Nat) (nonce : String) (s : String) :
    (sha1DigestHandle secret nonce (some s)).1 = .ok () ↔
      hexDecode s = some (expected_digest secret nonce) := by
  rcases hd : hexDecode s with _ | bs
  · simp [sha1DigestHandle, hd]
  · by_cases he : expected_digest secret nonce = bs
    · simp [sha1DigestHandle, hd, he]
    · simp [sha1DigestHandle, hd, he]
      exact fun hh => he hh.symm

theorem handle_some_mismatch (secret : List Nat) (nonce : String) (s : String) (bs : List Nat)
    (hbs : hexDecode s = some bs) (hne : bs ≠ expected_digest secret nonce) :
    (sha1DigestHandle secret nonce (some s)).1 = .error .innerWrongDigest := by
  simp [sha1DigestHandle, hbs, Ne.symm hne]

theorem handle_none_decode (secret : List Nat) (nonce : String) (s : String)
    (h : hexDecode s = none) :
    (sha1DigestHandle secret nonce (some s)).1 = .error .innerDecodeError := by
  simp [sha1DigestHandle, h]

/-! ## Claim theorems -/

/-- C3: for every on-disk PDO index `p` with `1 ≤ p ≤ 255` the conversion to a
`DoorMapping` succeeds and stores the zero-based index `p - 1`; for `p = 0` it
fails with the `PdoZero` error, and then the whole config construction fails. -/
theorem pdo_conversion (d : DoorMappingData) :
    (1 ≤ d.pdo → d.pdo ≤ 255 →
      DoorMapping.tryFrom d = .ok ⟨d.door_name, d.cmi_address, d.cmi_port.getD 5422,
        d.virtual_node, d.pdo - 1⟩) ∧
    (d.pdo = 0 → DoorMapping.tryFrom d = .error .pdoZero) ∧
    (∀ cd : ConfigData, d ∈ cd.cmi.door_mappings → d.pdo = 0 →
      Config.tryFrom cd = .error .pdoZero) := by
  refine ⟨fun h1 _ => ?_, fun h0 => ?_, fun cd hmem h0 => ?_⟩
  · simp [DoorMapping.tryFrom, checkedSub, h1]
  · simp [DoorMapping.tryFrom, checkedSub, h0]
  · have := tryFromMappings_error cd.cmi.door_mappings d hmem h0
    simp [Config.tryFrom, CmiConfig.tryFrom, this, Except.bind]

/-- C3 witness: pdo 3 is stored as 2; pdo 0 fails config construction. -/
theorem pdo_conversion_witness :
    DoorMapping.tryFrom ⟨"front", "10.0.0.5", none, 2, 3⟩
      = .ok ⟨"front", "10.0.0.5", 5422, 2, 2⟩ ∧
    Config.tryFrom ⟨⟨"0.0.0.0", none, "s"⟩, ⟨[⟨"z", "1.2.3.4", none, 2, 0⟩]⟩⟩
      = .error .pdoZero :=
  ⟨(pdo_conversion ⟨"front", "10.0.0.5", none, 2, 3⟩).1 (by decide) (by decide),
   (pdo_conversion ⟨"z", "1.2.3.4", none, 2, 0⟩).2.2
     ⟨⟨"0.0.0.0", none, "s"⟩, ⟨[⟨"z", "1.2.3.4", none, 2, 0⟩]⟩⟩ (by simp) rfl⟩

/-- C7: an omitted listen port defaults to 4573 and an explicit one is used
unchanged; an omitted controller port defaults to 5422 — one of the two stated
historical defaults — and an explicit one is used unchanged. -/
theorem default_ports (a s : String) (p q : Nat) (d : DoorMappingData) :
    (AgiConfig.fromData ⟨a, none, s⟩).listen_port = 4573 ∧
    (AgiConfig.fromData ⟨a, some p, s⟩).listen_port = p ∧
    (d.cmi_port = none → 1 ≤ d.pdo →
      DoorMapping.tryFrom d = .ok ⟨d.door_name, d.cmi_address, 5422, d.virtual_node, d.pdo - 1⟩ ∧
      ∀ m : DoorMapping, DoorMapping.tryFrom d = .ok m →
        m.cmi_port = 5422 ∧ (m.cmi_port = 5442 ∨ m.cmi_port = 5422)) ∧
    (d.cmi_port = some q → 1 ≤ d.pdo →
      DoorMapping.tryFrom d = .ok ⟨d.door_name, d.cmi_address, q, d.virtual_node, d.pdo - 1⟩) := by
  refine ⟨rfl, rfl, fun hn h1 => ?_, fun hq h1 => ?_⟩
  · have hok : DoorMapping.tryFrom d
        = .ok ⟨d.door_name, d.cmi_address, 5422, d.virtual_node, d.pdo - 1⟩ := by
      simp [DoorMapping.tryFrom, checkedSub, h1, hn]
    refine ⟨hok, fun m hm => ?_⟩
    rw [hok] at hm
    cases hm
    exact ⟨rfl, Or.inr rfl⟩
  · simp [DoorMapping.tryFrom, checkedSub, h1, hq]

/-- C7 witness: concrete default and explicit ports. -/
theorem default_ports_witness :
    (AgiConfig.fromData ⟨"0.0.0.0", none, "s"⟩).listen_port = 4573 ∧
    (AgiConfig.fromData ⟨"0.0.0.0", some 4574, "s"⟩).listen_port = 4574 ∧
    DoorMapping.tryFrom ⟨"front", "10.0.0.5", none, 2, 3⟩
      = .ok ⟨"front", "10.0.0.5", 5422, 2, 2⟩ ∧
    DoorMapping.tryFrom ⟨"front", "10.0.0.5", some 7777, 2, 3⟩
      = .ok ⟨"front", "10.0.0.5", 7777, 2, 2⟩ :=
  ⟨(default_ports "0.0.0.0" "s" 4574 7777 ⟨"front", "10.0.0.5", none, 2, 3⟩).1,
   (default_ports "0.0.0.0" "s" 4574 7777 ⟨"front", "10.0.0.5", none, 2, 3⟩).2.1,
   ((default_ports "0.0.0.0" "s" 4574 7777 ⟨"front", "10.0.0.5", none, 2, 3⟩).2.2.1
     rfl (by decide)).1,
   (default_ports "0.0.0.0" "s" 4574 7777 ⟨"front", "10.0.0.5", some 7777, 2, 3⟩).2.2.2
     rfl (by decide)⟩

/-- C4: the resolver scans the mapping list in order and returns the first
mapping whose name is exactly equal to the request (it agrees with
`List.find?` on exact string equality); when no entry matches, the handler
fails with the client-side unknown-door error and produces zero transport
events. -/
theorem resolver_first_match (cfg : CmiConfig) (captures : List (String × String))
    (tr : Transport) (name : String) :
    (cfg.get_cmi_for_door name
      = cfg.door_mappings.find? (fun m => m.door_name == name)) ∧
    (∀ m, cfg.get_cmi_for_door name = some m →
      m ∈ cfg.door_mappings ∧ m.door_name = name) ∧
    ((∀ m ∈ cfg.door_mappings, m.door_name ≠ name) →
      cfg.get_cmi_for_door name = none) ∧
    (∀ door, captures.lookup "door" = some door → cfg.get_cmi_for_door door = none →
      OpenDoorHandler.handle cfg captures tr
        = (.error (.clientSideError "Door is not known."), [])) := by
  refine ⟨findDoor_eq_find cfg.door_mappings name,
    fun m hm => findDoor_some cfg.door_mappings name m hm,
    fun h => findDoor_none cfg.door_mappings name h,
    fun door hcap hnone => ?_⟩
  simp [OpenDoorHandler.handle, hcap, hnone]

/-- C4 witness: resolving `back` against a config that only knows `front`
fails client-side with no transport events. -/
theorem resolver_first_match_witness :
    OpenDoorHandler.handle ⟨[⟨"front", "10.0.0.5", 5422, 2, 2⟩]⟩ [("door", "back")]
      ⟨true, true, true⟩ = (.error (.clientSideError "Door is not known."), []) :=
  (resolver_first_match ⟨[⟨"front", "10.0.0.5", 5422, 2, 2⟩]⟩ [("door", "back")]
    ⟨true, true, true⟩ "back").2.2.2 "back" rfl rfl

/-- C2: an actuation succeeds exactly when the bind and both sends succeed; a
successful actuation sends, from the one socket bound for it, the ON frame for
the mapping's node and zero-based index, holds for fixed 15 seconds, and sends
the OFF frame for the same node and index — and nothing else; a failure of the
OFF-phase send is surfaced as `CannotSendCoe` after the ON frame already went
out. -/
theorem open_door_pulse (m : DoorMapping) :
    (∀ tr : Transport, ((open_door m tr).1 = .ok () ↔
      tr.bindOk = true ∧ tr.sendOnOk = true ∧ tr.sendOffOk = true)) ∧
    open_door m ⟨true, true, true⟩ = (.ok (),
      [.sendFrame 0 m.cmi_host m.virtual_node m.pdo true,
       .sleepSecs 15,
       .sendFrame 0 m.cmi_host m.virtual_node m.pdo false]) ∧
    open_door m ⟨true, true, false⟩ = (.error .cannotSendCoe,
      [.sendFrame 0 m.cmi_host m.virtual_node m.pdo true, .sleepSecs 15]) := by
  refine ⟨fun tr => ?_,
    by simp [open_door, sendEvent, DoorMapping.payload_with_value],
    by simp [open_door, sendEvent, DoorMapping.payload_with_value]⟩
  rcases tr with ⟨b, s1, s2⟩
  cases b <;> cases s1 <;> cases s2 <;>
    simp [open_door, sendEvent, DoorMapping.payload_with_value]

/-- C10: the unused duplicate `DoorMapping::open_door` in src/config.rs sends
exactly one datagram — the ON frame for the mapping's node and zero-based
index — then reports success immediately: no sleep and no OFF frame occur. -/
theorem config_open_door_single_frame (m : DoorMapping) :
    DoorMapping.open_door m true true = (.ok (),
      [.sendFrame 0 (m.cmi_address ++ ":" ++ toString m.cmi_port)
        m.virtual_node m.pdo true]) ∧
    (∀ n, Event.sleepSecs n ∉ (DoorMapping.open_door m true true).2) ∧
    (∀ sock h vn p, Event.sendFrame sock h vn p false ∉ (DoorMapping.open_door m true true).2) := by
  refine ⟨rfl, fun n => ?_, fun sock h vn p => ?_⟩ <;>
    simp [DoorMapping.open_door, sendEvent]

/-- C2 witness: the successful pulse of a concrete mapping, and the surfaced
OFF-phase failure. -/
theorem open_door_pulse_witness :
    open_door ⟨"front", "10.0.0.5", 5422, 2, 2⟩ ⟨true, true, true⟩
      = (.ok (), [.sendFrame 0 "10.0.0.5:5422" 2 2 true, .sleepSecs 15,
          .sendFrame 0 "10.0.0.5:5422" 2 2 false]) ∧
    open_door ⟨"front", "10.0.0.5", 5422, 2, 2⟩ ⟨true, true, false⟩
      = (.error .cannotSendCoe, [.sendFrame 0 "10.0.0.5:5422" 2 2 true, .sleepSecs 15]) :=
  ⟨(open_door_pulse ⟨"front", "10.0.0.5", 5422, 2, 2⟩).2.1,
   (open_door_pulse ⟨"front", "10.0.0.5", 5422, 2, 2⟩).2.2⟩

/-- C10 witness: the duplicate implementation sends only one ON frame for a
concrete mapping. -/
theorem config_open_door_single_frame_witness :
    DoorMapping.open_door ⟨"front", "10.0.0.5", 5422, 2, 2⟩ true true
      = (.ok (), [.sendFrame 0 "10.0.0.5:5422" 2 2 true]) :=
  (config_open_door_single_frame ⟨"front", "10.0.0.5", 5422, 2, 2⟩).1

/-- The all-zero 40-hex-character nonce: what `create_nonce` produces at the
epoch with an all-zero random fill. -/
def nonce0 : String := String.mk (List.replicate 40 '0')

/-- C1 (amended): the authenticator accepts exactly the responses that
hex-decode — upper- or lowercase — to `SHA1(secret ++ ":" ++ nonce)`; every
hex string decoding to different bytes is rejected as a wrong digest, and
non-decodable responses are rejected with the decode error. -/
theorem authenticator_accepts_iff (secret : List Nat) (nonce : String) (s : String) :
    ((sha1DigestHandle secret nonce (some s)).1 = .ok () ↔
      hexDecode s = some (expected_digest secret nonce)) ∧
    (∀ bs, hexDecode s = some bs → bs ≠ expected_digest secret nonce →
      (sha1DigestHandle secret nonce (some s)).1 = .error .innerWrongDigest) ∧
    (s.data.length % 2 = 0 → (∀ c ∈ s.data, (hexDigitVal c).isSome = true) →
      hexDecode s ≠ some (expected_digest secret nonce) →
      (sha1DigestHandle secret nonce (some s)).1 = .error .innerWrongDigest) ∧
    (hexDecode s = none →
      (sha1DigestHandle secret nonce (some s)).1 = .error .innerDecodeError) := by
  refine ⟨handle_some_ok_iff secret nonce s,
    fun bs hbs hne => handle_some_mismatch secret nonce s bs hbs hne,
    fun hlen hall hne => ?_, fun h => handle_none_decode secret nonce s h⟩
  have hs : (hexDecode s).isSome = true := hexDecodeList_isSome s.data hlen hall
  rcases ho : hexDecode s with _ | bs
  · rw [ho] at hs; simp at hs
  · exact handle_some_mismatch secret nonce s bs ho fun h => hne (by rw [ho, h])

/-- C1 witness: with secret `s3cr3t` and the all-zero nonce, the lowercase hex
digest is accepted, a wrong 40-hex-character response is rejected as a wrong
digest, and a non-hex response is rejected with the decode error. -/
theorem authenticator_accepts_iff_witness :
    (sha1DigestHandle (strBytes "s3cr3t") nonce0
      (some "8f38555ba8d96fc72dbe4dcee1146105bcc37f8a")).1 = .ok () ∧
    (sha1DigestHandle (strBytes "s3cr3t") nonce0
      (some (String.mk (List.replicate 40 'a')))).1 = .error .innerWrongDigest ∧
    (sha1DigestHandle (strBytes "s3cr3t") nonce0 (some "zz")).1 = .error .innerDecodeError :=
  ⟨(authenticator_accepts_iff (strBytes "s3cr3t") nonce0 _).1.mpr (by rfl),
   (authenticator_accepts_iff (strBytes "s3cr3t") nonce0 _).2.2.1
     (by decide) (by decide) (by decide),
   (authenticator_accepts_iff (strBytes "s3cr3t") nonce0 _).2.2.2 rfl⟩

/-- C1 counterexample: for secret `s3cr3t` and the generated all-zero nonce,
the UPPERCASE hex of the correct digest is a 40-hex-character string different
from the hex encoding the spec names, yet the authenticator accepts it instead
of rejecting it with a digest mismatch. -/
theorem uppercase_hex_accepted_cex :
    nonce0 = create_nonce 0 0 (List.replicate 8 0) ∧
    (hexDecode "8F38555BA8D96FC72DBE4DCEE1146105BCC37F8A").isSome = true ∧
    "8F38555BA8D96FC72DBE4DCEE1146105BCC37F8A".length = 40 ∧
    "8F38555BA8D96FC72DBE4DCEE1146105BCC37F8A"
      ≠ hexEncode (expected_digest (strBytes "s3cr3t") nonce0) ∧
    (sha1DigestHandle (strBytes "s3cr3t") nonce0
      (some "8F38555BA8D96FC72DBE4DCEE1146105BCC37F8A")).1 = .ok () :=
  ⟨rfl, rfl, rfl, by decide, rfl⟩

/-- C6 (amended): the handshake succeeds exactly when the response hex-decodes
to the expected digest; both the lowercase hex encoding and its uppercase
variant are accepted. -/
theorem handshake_case_insensitive (secret : List Nat) (nonce : String) :
    (∀ s, (sha1DigestHandle secret nonce (some s)).1 = .ok () ↔
      hexDecode s = some (expected_digest secret nonce)) ∧
    (sha1DigestHandle secret nonce
      (some (hexEncode (expected_digest secret nonce)))).1 = .ok () ∧
    (sha1DigestHandle secret nonce
      (some (String.mk (List.map Char.toUpper
        (hexEncodeList (expected_digest secret nonce)))))).1 = .ok () := by
  refine ⟨fun s => handle_some_ok_iff secret nonce s, ?_, ?_⟩
  · exact (handle_some_ok_iff secret nonce _).mpr
      (hexDecode_hexEncode _ (expected_digest_lt256 secret nonce))
  · exact (handle_some_ok_iff secret nonce _).mpr
      (hexDecodeList_upper_hexEncodeList _ (expected_digest_lt256 secret nonce))

/-- C6 witness: a concrete secret's lowercase digest is accepted. -/
theorem handshake_case_insensitive_witness :
    (sha1DigestHandle (strBytes "sec") nonce0
      (some (hexEncode (expected_digest (strBytes "sec") nonce0)))).1 = .ok () :=
  (handshake_case_insensitive (strBytes "sec") nonce0).2.1

/-- C6 counterexample: for secret `top_secret` and the generated all-zero
nonce, the caller's response is the UPPERCASE hex encoding of the correct
digest — not the 40-character lowercase string — and the handshake
nevertheless succeeds. -/
theorem uppercase_hex_accepted_cex2 :
    "F2FF722D1C7725A758116B6A68F4D4C33803E9DF"
      ≠ hexEncode (expected_digest (strBytes "top_secret") nonce0) ∧
    "F2FF722D1C7725A758116B6A68F4D4C33803E9DF"
      = String.mk (List.map Char.toUpper
          (hexEncodeList (expected_digest (strBytes "top_secret") nonce0))) ∧
    (sha1DigestHandle (strBytes "top_secret") nonce0
      (some "F2FF722D1C7725A758116B6A68F4D4C33803E9DF")).1 = .ok () :=
  ⟨by decide, rfl, rfl⟩

/-- C9: a response that hex-decodes to a byte length other than 20 is rejected
as a wrong digest, not as a decode error; the decode error occurs exactly for
responses that do not hex-decode at all. -/
theorem wrong_length_is_mismatch (secret : List Nat) (nonce : String) (s : String) :
    (∀ bs, hexDecode s = some bs → bs.length ≠ 20 →
      (sha1DigestHandle secret nonce (some s)).1 = .error .innerWrongDigest) ∧
    ((sha1DigestHandle secret nonce (some s)).1 = .error .innerDecodeError ↔
      hexDecode s = none) := by
  constructor
  · intro bs hbs hlen
    refine handle_some_mismatch secret nonce s bs hbs fun h => hlen ?_
    rw [h]
    exact expected_digest_length secret nonce
  · rcases hd : hexDecode s with _ | bs
    · simp [sha1DigestHandle, hd]
    · by_cases he : expected_digest secret nonce = bs <;> simp [sha1DigestHandle, hd, he]

/-- C9 witness: a 38-hex-character response (19 bytes) is a wrong digest; a
non-hex response is a decode error. -/
theorem wrong_length_is_mismatch_witness :
    (sha1DigestHandle (strBytes "secret") nonce0
      (some (String.mk (List.replicate 38 'a')))).1 = .error .innerWrongDigest ∧
    (sha1DigestHandle (strBytes "secret") nonce0 (some "xyz")).1
      = .error .innerDecodeError :=
  ⟨(wrong_length_is_mismatch (strBytes "secret") nonce0 _).1
     (List.replicate 19 170) (by decide) (by decide),
   (wrong_length_is_mismatch (strBytes "secret") nonce0 "xyz").2.mpr rfl⟩

/-- C5 (amended): every authentication failure — decode failure, digest
mismatch, missing secret variable — rejects the request with zero transport
events (no actuation); the missing-secret case fails with a client-side error
distinct from the decode and wrong-digest errors; but a diagnostic is sent
back over the session only in the digest-mismatch case — the decode-failure
and missing-secret rejections send none. -/
theorem auth_failure_modes (secret : List Nat) (nonce : String) (response : Option String)
    (cfg : CmiConfig) (captures : List (String × String)) (tr : Transport) :
    (∀ e diags, sha1DigestHandle secret nonce response = (.error e, diags) →
      (serveRequest secret nonce response cfg captures tr).2.2 = [] ∧
      (serveRequest secret nonce response cfg captures tr).1 = .error e) ∧
    (∀ s, response = some s → hexDecode s = none →
      sha1DigestHandle secret nonce response = (.error .innerDecodeError, [])) ∧
    ((sha1DigestHandle secret nonce response).1 = .error .innerWrongDigest →
      (sha1DigestHandle secret nonce response).2 = ["Unauthenticated: Wrong Digest."]) ∧
    (response = none →
      sha1DigestHandle secret nonce response
        = (.error (.clientSideError
            "Expected BLAZING_AGI_DIGEST_SECRET to be set, but it is not"), []) ∧
      ∀ msg, AGIErrorM.clientSideError msg ≠ .innerDecodeError ∧
        AGIErrorM.clientSideError msg ≠ .innerWrongDigest) := by
  refine ⟨fun e diags h => by simp [serveRequest, h], fun s hs hdec => ?_, ?_, fun hn => ?_⟩
  · subst hs
    simp [sha1DigestHandle, hdec]
  · intro hw
    rcases response with _ | s
    · simp [sha1DigestHandle] at hw
    · rcases hd : hexDecode s with _ | bs
      · simp [sha1DigestHandle, hd] at hw
      · by_cases he : expected_digest secret nonce = bs
        · simp [sha1DigestHandle, hd, he] at hw
        · simp [sha1DigestHandle, hd, he]
  · subst hn
    exact ⟨rfl, fun msg => ⟨by simp, by simp⟩⟩

/-- C5 witness: a decode failure and a missing secret reject with no events
and no diagnostic; a wrong digest sends the diagnostic. -/
theorem auth_failure_modes_witness :
    (serveRequest (strBytes "s3cr3t") nonce0 (some "zz") ⟨[]⟩ [] ⟨true, true, true⟩).2.2 = [] ∧
    sha1DigestHandle (strBytes "s3cr3t") nonce0 (some "zz")
      = (.error .innerDecodeError, []) ∧
    (sha1DigestHandle (strBytes "s3cr3t") nonce0
      (some (String.mk (List.replicate 40 'b')))).2 = ["Unauthenticated: Wrong Digest."] ∧
    (sha1DigestHandle (strBytes "s3cr3t") nonce0 none).2 = [] :=
  ⟨((auth_failure_modes (strBytes "s3cr3t") nonce0 (some "zz") ⟨[]⟩ [] ⟨true, true, true⟩).1
      .innerDecodeError [] rfl).1,
   (auth_failure_modes (strBytes "s3cr3t") nonce0 (some "zz") ⟨[]⟩ [] ⟨true, true, true⟩).2.1
      "zz" rfl rfl,
   (auth_failure_modes (strBytes "s3cr3t") nonce0
      (some (String.mk (List.replicate 40 'b'))) ⟨[]⟩ [] ⟨true, true, true⟩).2.2.1 (by rfl),
   by
     have h := ((auth_failure_modes (strBytes "s3cr3t") nonce0 none ⟨[]⟩ []
       ⟨true, true, true⟩).2.2.2 rfl).1
     rw [h]⟩

/-- C5 counterexample: on a decode failure (response `zz`) and on a missing
secret the request is rejected with NO diagnostic sent back over the session,
contradicting the claim that a diagnostic precedes every authentication
rejection. -/
theorem no_diagnostic_on_decode_failure_cex :
    (sha1DigestHandle (strBytes "s3cr3t") nonce0 (some "zz")).1
      = .error .innerDecodeError ∧
    (sha1DigestHandle (strBytes "s3cr3t") nonce0 (some "zz")).2 = [] ∧
    (sha1DigestHandle (strBytes "s3cr3t") nonce0 none).2 = [] :=
  ⟨rfl, rfl, rfl⟩

/-- C8: a nonce generated at `secs` seconds (u64), `millis` sub-second
milliseconds (u32), with 8 random bytes, is a 40-character hex string that
decodes to exactly 20 bytes: bytes 0–7 the little-endian seconds, bytes 8–11
the little-endian milliseconds, bytes 12–19 the random fill. -/
theorem create_nonce_layout (secs millis : Nat) (rand : List Nat)
    (hs : secs < 18446744073709551616) (hm : millis < 4294967296)
    (hr : rand.length = 8) (hrb : ∀ b ∈ rand, b < 256) :
    (create_nonce secs millis rand).length = 40 ∧
    hexDecode (create_nonce secs millis rand)
      = some (leBytes8 secs ++ (leBytes4 millis ++ rand)) ∧
    (leBytes8 secs ++ (leBytes4 millis ++ rand)).length = 20 ∧
    (leBytes8 secs ++ (leBytes4 millis ++ rand)).take 8 = leBytes8 secs ∧
    ((leBytes8 secs ++ (leBytes4 millis ++ rand)).drop 8).take 4 = leBytes4 millis ∧
    (leBytes8 secs ++ (leBytes4 millis ++ rand)).drop 12 = rand ∧
    leVal (leBytes8 secs) = secs ∧
    leVal (leBytes4 millis) = millis := by
  have hraw : setSlice (setSlice (setSlice (List.replicate 20 0) 0 (leBytes8 secs))
      8 (leBytes4 millis)) 12 rand = leBytes8 secs ++ (leBytes4 millis ++ rand) :=
    create_nonce_raw secs millis rand hr
  have hlt : ∀ b ∈ leBytes8 secs ++ (leBytes4 millis ++ rand), b < 256 := by
    intro b hb
    rcases List.mem_append.mp hb with h | h
    · exact leBytes8_lt256 secs b h
    · rcases List.mem_append.mp h with h' | h'
      · exact leBytes4_lt256 millis b h'
      · exact hrb b h'
  have hlen20 : (leBytes8 secs ++ (leBytes4 millis ++ rand)).length = 20 := by
    simp [leBytes8, leBytes4, hr]
  refine ⟨?_, ?_, hlen20, ?_, ?_, ?_, leVal_leBytes8 secs hs, leVal_leBytes4 millis hm⟩
  · rw [create_nonce, hraw, hexEncode_length, hlen20]
  · rw [create_nonce, hraw]
    exact hexDecode_hexEncode _ hlt
  · exact List.take_left' (leBytes8_length secs)
  · rw [List.drop_left' (leBytes8_length secs)]
    exact List.take_left' (leBytes4_length millis)
  · have : (12 : Nat) = (leBytes8 secs ++ leBytes4 millis).length := by
      simp [leBytes8, leBytes4]
    rw [← List.append_assoc, this, List.drop_left]

/-- C8 witness: a concrete nonce. -/
theorem create_nonce_layout_witness :
    (create_nonce 1700000000 123 [1, 2, 3, 4, 5, 6, 7, 8]).length = 40 ∧
    hexDecode (create_nonce 1700000000 123 [1, 2, 3, 4, 5, 6, 7, 8])
      = some (leBytes8 1700000000 ++ (leBytes4 123 ++ [1, 2, 3, 4, 5, 6, 7, 8])) :=
  ⟨(create_nonce_layout 1700000000 123 [1, 2, 3, 4, 5, 6, 7, 8]
      (by decide) (by decide) (by decide) (by decide)).1,
   (create_nonce_layout 1700000000 123 [1, 2, 3, 4, 5, 6, 7, 8]
      (by decide) (by decide) (by decide) (by decide)).2.1⟩

end Doorbell
